import Mathlib

/-!
Shallow embedding of the `levelsprotechshop-api` product-catalog backend
(`src/api/views.py`, `src/api/serializers.py`, `src/api/utils.py`,
`src/api/models.py`) and proofs about the claims of its specification.

Modelling conventions:
* Python strings are Lean `String`s; Python `int` is Lean `Int`; Python
  `float` values arising from parsing finite decimal literals are modelled
  exactly as scaled decimals (`PyFloat`, with `toRat` their value; every
  value exercised here is exactly representable, so no rounding is
  modelled; the non-finite literals `inf`/`nan` are outside the modelled
  domain).
* Database rows are explicit lists; the persistent store is a
  `List Product` given in the model's base order (the `Meta.ordering` of
  the `Product` model, newest first), and each mutation returns the new
  store.
* External collaborators (the Pillow image library) are passed in as an
  explicit environment value.
-/

namespace Shop

/-- Python whitespace (`str.strip`, regex `\s`), restricted to ASCII:
space, tab, newline, carriage return, vertical tab, form feed. -/
def isPyWs (c : Char) : Bool :=
  c = ' ' || c = '\t' || c = '\n' || c = '\r' || c = Char.ofNat 11 || c = Char.ofNat 12

/-- Model of Python `str.strip()`: drop leading and trailing whitespace. -/
def pyStrip (s : String) : String :=
  String.mk (((s.toList.dropWhile isPyWs).reverse.dropWhile isPyWs).reverse)

/-- Replace every non-overlapping occurrence of `pat` (nonempty), left
to right; `fuel` bounds the recursion by the input length. -/
def replaceAux (pat rep : List Char) : Nat → List Char → List Char
  | _, [] => []
  | 0, l => l
  | fuel + 1, c :: rest =>
    if pat.isPrefixOf (c :: rest) then
      rep ++ replaceAux pat rep fuel ((c :: rest).drop pat.length)
    else c :: replaceAux pat rep fuel rest

/-- Model of Python `s.replace(pat, rep)` for a nonempty pattern. -/
def pyReplace (s pat rep : String) : String :=
  if pat = "" then s
  else String.mk (replaceAux pat.toList rep.toList (s.toList.length + 1) s.toList)

/-- Model of Python `str.upper()` (ASCII). -/
def pyUpper (s : String) : String := String.mk (s.toList.map Char.toUpper)

/-- Model of Python `str.lower()` (ASCII). -/
def pyLower (s : String) : String := String.mk (s.toList.map Char.toLower)

/-- Model of Python `s.split(',')`. -/
def splitCommaList : List Char → List (List Char)
  | [] => [[]]
  | c :: rest =>
    let r := splitCommaList rest
    if c = ',' then [] :: r
    else (c :: r.headD []) :: r.tail

def pySplitComma (s : String) : List String := (splitCommaList s.toList).map String.mk

/-- Continuation of a Python digit run: digits with single underscores
allowed between digits (`digit (["_"] digit)*`, after the first digit). -/
def digitRunAux : List Char → Bool
  | [] => true
  | '_' :: c :: rest => c.isDigit && digitRunAux rest
  | c :: rest => c.isDigit && digitRunAux rest

/-- A nonempty Python digit run (`digit (["_"] digit)*`). -/
def digitRun : List Char → Bool
  | [] => false
  | c :: rest => c.isDigit && digitRunAux rest

/-- Numeric value of a digit run, skipping the underscore separators. -/
def digitsVal (cs : List Char) : Nat :=
  cs.foldl (fun a c => if c = '_' then a else a * 10 + (c.toNat - '0'.toNat)) 0

/-- Model of Python `int(s)` on a string: strip whitespace, optional
sign, then a digit run; `none` models the `ValueError`. -/
def pythonInt? (s : String) : Option Int :=
  match (pyStrip s).toList with
  | '+' :: rest => if digitRun rest then some (digitsVal rest : Int) else none
  | '-' :: rest => if digitRun rest then some (-(digitsVal rest : Int)) else none
  | rest => if digitRun rest then some (digitsVal rest : Int) else none

def isDigitOrScore (c : Char) : Bool := c.isDigit || c = '_'

def stripScores (cs : List Char) : List Char := cs.filter (fun c => c ≠ '_')

/-- A finite Python float value, kept exactly as the scaled decimal
`num / 10 ^ scale` (every float literal a price string can denote is of
this form, and every value exercised by the claims is exactly
representable, so no binary rounding is modelled). -/
structure PyFloat where
  num : Int
  scale : Nat
  deriving DecidableEq

/-- The rational value denoted by a `PyFloat`. -/
def PyFloat.toRat (v : PyFloat) : Rat := (v.num : Rat) / (10 : Rat) ^ v.scale

/-- Value-level order on `PyFloat` (cross-multiplied, so it is
computable by integer arithmetic). -/
def PyFloat.le (a b : PyFloat) : Bool :=
  decide (a.num * (10 : Int) ^ b.scale ≤ b.num * (10 : Int) ^ a.scale)

/-- Multiply a `PyFloat` by `10 ^ e`. -/
def PyFloat.applyExp (v : PyFloat) (e : Int) : PyFloat :=
  if 0 ≤ e then ⟨v.num * (10 : Int) ^ e.toNat, v.scale⟩
  else ⟨v.num, v.scale + (-e).toNat⟩

def PyFloat.neg (v : PyFloat) : PyFloat := ⟨-v.num, v.scale⟩

/-- Parse the mantissa of a Python float literal
(`digitpart [. [digitpart]] | . digitpart`); returns its exact value and
the unconsumed rest. -/
def parseMantissa (cs : List Char) : Option (PyFloat × List Char) :=
  let ip := cs.takeWhile isDigitOrScore
  let rest := cs.dropWhile isDigitOrScore
  match rest with
  | '.' :: rest2 =>
    let fp := rest2.takeWhile isDigitOrScore
    let rest3 := rest2.dropWhile isDigitOrScore
    if ip.isEmpty then
      if digitRun fp then some (⟨digitsVal (stripScores fp), (stripScores fp).length⟩, rest3)
      else none
    else if digitRun ip then
      if fp.isEmpty then some (⟨digitsVal (stripScores ip), 0⟩, rest3)
      else if digitRun fp then
        some (⟨digitsVal (stripScores ip ++ stripScores fp), (stripScores fp).length⟩, rest3)
      else none
    else none
  | _ =>
    if digitRun ip then some (⟨digitsVal (stripScores ip), 0⟩, rest) else none

/-- Signed digit run of a float exponent. -/
def expDigits : List Char → Option Int
  | '+' :: rest => if digitRun rest then some (digitsVal rest : Int) else none
  | '-' :: rest => if digitRun rest then some (-(digitsVal rest : Int)) else none
  | rest => if digitRun rest then some (digitsVal rest : Int) else none

/-- Optional exponent part of a Python float literal (`[("e"|"E") [sign] digits]`),
which must consume the whole remaining input. -/
def parseExpPart : List Char → Option Int
  | [] => some 0
  | 'e' :: rest => expDigits rest
  | 'E' :: rest => expDigits rest
  | _ => none

/-- Model of Python `float(s)` on finite decimal literals: strip
whitespace, optional sign, mantissa, optional exponent; the value is
kept as an exact scaled decimal. `none` models the `ValueError`. -/
def pythonFloat? (s : String) : Option PyFloat :=
  let cs := (pyStrip s).toList
  let sgn : Bool × List Char :=
    match cs with
    | '+' :: r => (false, r)
    | '-' :: r => (true, r)
    | r => (false, r)
  match parseMantissa sgn.2 with
  | none => none
  | some (m, rest) =>
    match parseExpPart rest with
    | none => none
    | some e => some (PyFloat.applyExp (if sgn.1 then PyFloat.neg m else m) e)

/-- Insert `,` after every three characters of a reversed digit string. -/
def groupRev : List Char → List Char
  | a :: b :: c :: d :: rest => a :: b :: c :: ',' :: groupRev (d :: rest)
  | l => l

/-- Model of Python `f"{n:,}"` for an integer `n`: thousands separators
grouped by three digits from the right. -/
def commaFormat (n : Int) : String :=
  (if n < 0 then "-" else "") ++
    String.mk (groupRev ((toString n.natAbs).toList.reverse)).reverse

/-- A Python value as far as `format_price_with_commas` distinguishes
them: an `int`, a `str`, or anything else (returned unchanged).  `float`
inputs are outside the modelled domain (no claim exercises them). -/
inductive PyVal where
  | intV (n : Int)
  | strV (s : String)
  | otherV
  deriving DecidableEq

/-- The string branch of `utils.format_price_with_commas`: remove
commas, spaces and `"TZS"`, strip, parse as `int` and re-render with
thousands separators; the input is returned unchanged if parsing fails. -/
def formatPriceStr (s : String) : String :=
  let price_str := pyStrip (pyReplace (pyReplace (pyReplace s "," "") " " "") "TZS" "")
  match pythonInt? price_str with
  | some n => commaFormat n
  | none => s

/-- Transcription of `utils.format_price_with_commas`: a string goes through
`formatPriceStr`; an `int` is rendered with separators; anything else is
returned unchanged. -/
def format_price_with_commas : PyVal → PyVal
  | .strV s => .strV (formatPriceStr s)
  | .intV n => .strV (commaFormat n)
  | .otherV => .otherV

/-- Transcription of `views._extract_price_value` (and the identical
`ProductViewSet._extract_price_value`): remove `"TZS"` and commas, strip,
parse as float; on any failure return `0.0`. -/
def extract_price_value (price_str : String) : PyFloat :=
  match pythonFloat? (pyStrip (pyReplace (pyReplace price_str "TZS" "") "," "")) with
  | some v => v
  | none => ⟨0, 0⟩

/-! ### Validators (`src/api/utils.py`, `src/api/serializers.py`) -/

/-- Occurrence of `needle` as a contiguous sublist of `hay`. -/
def listOccurs (needle : List Char) : List Char → Bool
  | [] => needle.isEmpty
  | c :: rest => needle.isPrefixOf (c :: rest) || listOccurs needle rest

/-- Python `needle in hay` on strings. -/
def strOccurs (needle hay : String) : Bool := listOccurs needle.toList hay.toList

/-- The `(?:\s+TZS)?$` tail of the price regex, for a nonempty rest:
one or more whitespace characters followed by exactly `TZS`. -/
def wsTZS (cs : List Char) : Bool :=
  let ws := cs.takeWhile isPyWs
  let rest := cs.dropWhile isPyWs
  decide (1 ≤ ws.length) && (rest == ['T', 'Z', 'S'])

/-- The `(,\d{3})*(?:\s+TZS)?$` tail of price pattern 1. -/
def commaGroupsThenSuffix : List Char → Bool
  | [] => true
  | ',' :: a :: b :: c :: rest =>
    a.isDigit && b.isDigit && c.isDigit && commaGroupsThenSuffix rest
  | rest => wsTZS rest

/-- Price pattern 1 of `utils.validate_price_format`:
`^\d{1,3}(,\d{3})*(?:\s+TZS)?$` (over ASCII digits). -/
def pricePat1 (cs : List Char) : Bool :=
  let ds := cs.takeWhile Char.isDigit
  let rest := cs.dropWhile Char.isDigit
  decide (1 ≤ ds.length ∧ ds.length ≤ 3) && commaGroupsThenSuffix rest

/-- Price pattern 2 of `utils.validate_price_format`: `^\d+$`. -/
def pricePat2 (cs : List Char) : Bool := !cs.isEmpty && cs.all Char.isDigit

/-- Transcription of `utils.validate_price_format` on a string price. -/
def validate_price_format (price : String) : Bool :=
  let price_str := pyStrip price
  pricePat1 price_str.toList || pricePat2 price_str.toList

/-- Transcription of `utils.validate_category`: membership in the fixed category set. -/
def validate_category (category : String) : Bool :=
  ["Laptops", "Desktops", "Gaming PCs", "Accessories"].contains category

/-- Python `str.isdigit` (ASCII digits). -/
def pyIsDigit (s : String) : Bool := !s.isEmpty && s.toList.all Char.isDigit

/-- Transcription of `ProductSerializer.validate_name`. -/
def validate_name (value : String) : Except String String :=
  if value.length < 3 then .error "Product name must be at least 3 characters long."
  else if value.length > 200 then .error "Product name must not exceed 200 characters."
  else .ok value

/-- Transcription of `ProductSerializer.validate_category`. -/
def validate_category_field (value : String) : Except String String :=
  if !validate_category value then
    .error "Category must be one of: Laptops, Desktops, Gaming PCs, Accessories"
  else .ok value

/-- Transcription of `ProductSerializer.validate_price` on the (CharField) string value:
validate the format, then normalize — a plain digit string gains commas,
a `TZS`-suffixed plain number is comma-grouped with the suffix kept, and
anything else is returned stripped. -/
def validate_price_field (value : String) : Except String String :=
  if !validate_price_format value then
    .error "Price must be a number or in format: '720,000' or '720,000 TZS'"
  else
    let price_str := pyStrip value
    if pricePat2 price_str.toList then .ok (formatPriceStr price_str)
    else if strOccurs "TZS" (pyUpper price_str) then
      let number_part := pyStrip (pyReplace (pyReplace price_str "TZS" "") "," "")
      if pyIsDigit number_part then .ok (formatPriceStr number_part ++ " TZS")
      else .ok price_str
    else .ok price_str

/-- Transcription of `ProductSerializer.validate_specs` on a (well-typed) list of strings:
every spec is at most 500 characters. -/
def validate_specs (value : List String) : Except String (List String) :=
  if value.all (fun spec => spec.length ≤ 500) then .ok value
  else .error "Each spec must not exceed 500 characters."

/-! ### Image codec and files (`src/api/utils.py`) -/

/-- An uploaded file as far as the code inspects it. -/
structure FileUpload where
  size : Nat
  content_type : String
  fileRef : String
  deriving DecidableEq

/-- Transcription of `utils.validate_image_file`: at most 5MB and an allowed content
type; `some msg` models the raised `ValueError`. -/
def validate_image_file (image_file : FileUpload) : Option String :=
  if image_file.size > 5 * 1024 * 1024 then some "Image size exceeds 5MB limit"
  else if !(["image/jpeg", "image/jpg", "image/png", "image/gif", "image/webp"].contains
      image_file.content_type) then
    some "Invalid image type. Allowed types: image/jpeg, image/jpg, image/png, image/gif, image/webp"
  else none

/-- Value of a base64 alphabet character. -/
def b64charVal (c : Char) : Option Nat :=
  if 'A' ≤ c ∧ c ≤ 'Z' then some (c.toNat - 'A'.toNat)
  else if 'a' ≤ c ∧ c ≤ 'z' then some (c.toNat - 'a'.toNat + 26)
  else if '0' ≤ c ∧ c ≤ '9' then some (c.toNat - '0'.toNat + 52)
  else if c = '+' then some 62
  else if c = '/' then some 63
  else none

def b64val (c : Char) : Nat := (b64charVal c).getD 0

/-- Decode base64 data characters (padding already removed) to bytes. -/
def decodeGroups : List Char → List UInt8
  | a :: b :: c :: d :: rest =>
    let v := b64val a * 262144 + b64val b * 4096 + b64val c * 64 + b64val d
    UInt8.ofNat (v / 65536) :: UInt8.ofNat (v / 256 % 256) :: UInt8.ofNat (v % 256) ::
      decodeGroups rest
  | [a, b] => [UInt8.ofNat (b64val a * 4 + b64val b / 16)]
  | [a, b, c] =>
    [UInt8.ofNat (b64val a * 4 + b64val b / 16), UInt8.ofNat (b64val b % 16 * 16 + b64val c / 4)]
  | _ => []

/-- Model of Python `base64.b64decode` (with `validate=False`):
characters outside the alphabet are discarded, the padded length must be
a multiple of four, and the data length must not be `≡ 1 (mod 4)`;
`none` models the raised `binascii.Error`. -/
def b64decode (s : String) : Option (List UInt8) :=
  let cs := s.toList.filter (fun c => (b64charVal c).isSome || c = '=')
  let body := cs.takeWhile (fun c => c ≠ '=')
  if body.length % 4 = 1 then none
  else if cs.length % 4 ≠ 0 then none
  else some (decodeGroups body)

/-- The Pillow image library as an external collaborator: `available`
models the optional import; `decodePng bytes` models
`Image.open` + RGB conversion + PNG re-encoding, with `none` a decoding
failure. -/
structure PilEnv where
  available : Bool
  decodePng : List UInt8 → Option (List UInt8)

/-- Transcription of `utils.base64_to_image`: requires Pillow, splits off an optional
data-URL prefix at the first comma, base64-decodes, decodes and
re-encodes the image, and returns the stored file (identified here by
its generated filename); `none` models the raised `ValueError`. -/
def base64_to_image (env : PilEnv) (base64_string : String) (filename : String) :
    Option String :=
  if !env.available then none
  else
    let s := if base64_string.toList.contains ',' then (pySplitComma base64_string).getD 1 ""
             else base64_string
    match b64decode s with
    | none => none
    | some image_data =>
      match env.decodePng image_data with
      | none => none
      | some _ => some filename

/-! ### Data model (`src/api/models.py`) -/

/-- A `ProductImage` row: identity and the stored image reference
(the binary payload lives out of band).  The `images` list of a product
is kept in `created_at` ascending order (the model's `Meta.ordering`),
i.e. insertion order. -/
structure ProductImage where
  imgId : Nat
  image : String
  deriving DecidableEq

/-- A `Product` row.  UUIDs and timestamps are modelled as `Nat`. -/
structure Product where
  pid : Nat
  name : String
  category : String
  price : String
  specs : List String
  warranty : String
  creator : Option Nat
  trending : Bool
  createdAt : Nat
  images : List ProductImage
  deriving DecidableEq

/-- The persistent store, listed in the base order in which
`Product.objects.all()` yields rows (the model's `Meta.ordering`,
`-created_at`). -/
abbrev Store := List Product

def findProduct (pid : Nat) (store : Store) : Option Product :=
  store.find? (fun p => p.pid == pid)

def imagesOf (pid : Nat) (store : Store) : List ProductImage :=
  ((findProduct pid store).map Product.images).getD []

/-- Model of `ProductImage.objects.create(product=..., image=...)`. -/
def addImage (pid : Nat) (img : String) (store : Store) : Store :=
  store.map (fun p =>
    if p.pid == pid then { p with images := p.images ++ [⟨p.images.length, img⟩] } else p)

/-- Model of `product.delete()` — cascades to the product's images. -/
def deleteProduct (pid : Nat) (store : Store) : Store :=
  store.filter (fun p => p.pid != pid)

/-! ### Create (`ProductViewSet.create`, `ProductCreateSerializer`) -/

/-- A product-create request body.  `images_data` is `some` when the key
is present; `files` is `some` when `'images'` is present in
`request.FILES`. -/
structure CreateRequest where
  name : String
  category : String
  price : String
  specs : List String
  warranty : Option String
  trending : Bool
  images_data : Option (List String)
  files : Option (List FileUpload)
  deriving DecidableEq

/-- The validated data entering `ProductCreateSerializer.create`. -/
structure ValidatedCreate where
  name : String
  category : String
  price : String
  specs : List String
  warranty : Option String
  trending : Bool
  images_data : List String
  deriving DecidableEq

/-- Model of `serializer.is_valid(raise_exception=True)` for a create request:
the field validators, then `ProductCreateSerializer.validate` (at least
one image supplied, at most ten base64 images).  Errors are reported as
the first failing validator's message. -/
def runCreateValidation (req : CreateRequest) : Except String ValidatedCreate := do
  let name ← validate_name req.name
  let category ← validate_category_field req.category
  let price ← validate_price_field req.price
  let specs ← validate_specs req.specs
  let images_data := req.images_data.getD []
  if images_data.isEmpty ∧ req.files = none then
    .error "At least one image is required."
  else if images_data.length > 10 then
    .error "Maximum 10 images allowed per product."
  else
    .ok ⟨name, category, price, specs, req.warranty, req.trending, images_data⟩

/-- A uniform envelope response, with `data` the id of the serialized
product when one is returned. -/
structure Resp where
  success : Bool
  statusCode : Nat
  error : Option String := none
  message : Option String := none
  data : Option Nat := none
  deriving DecidableEq

def errorResponse (msg : String) (code : Nat) : Resp :=
  { success := false, statusCode := code, error := some msg }

/-- The base64-image loop of `ProductCreateSerializer.create`/`update`:
skip falsy entries, attach each decoded image, stop at the first failure
(`some msg` models the raised `serializers.ValidationError`; the images
attached before the failure stay attached). -/
def attachImagesData (env : PilEnv) (pid : Nat) (datas : List String) (idx : Nat)
    (store : Store) : Store × Option String :=
  match datas with
  | [] => (store, none)
  | image_data :: rest =>
    if image_data = "" then attachImagesData env pid rest (idx + 1) store
    else
      match base64_to_image env image_data
          ("product_" ++ toString pid ++ "_" ++ toString idx ++ ".png") with
      | some file => attachImagesData env pid rest (idx + 1) (addImage pid file store)
      | none => (store, some ("Error processing image " ++ toString (idx + 1)))

/-- The multipart-file loop of the create/update views: validate each
file, attach it, stop at the first invalid file (earlier files stay
attached; the caller decides whether to roll back). -/
def attachFiles (pid : Nat) (files : List FileUpload) (store : Store) :
    Store × Option String :=
  match files with
  | [] => (store, none)
  | image_file :: rest =>
    match validate_image_file image_file with
    | some e => (store, some e)
    | none => attachFiles pid rest (addImage pid image_file.fileRef store)

/-- Transcription of `ProductViewSet.create`: validate, persist the product (serializer
`create` persists the row first, then attaches the base64 images —
a failure there escapes as an exception and the `except` handler answers
400 *without* deleting the product), then attach multipart files and
check that at least one image resulted (these two failure paths do
delete the product). -/
def createEndpoint (env : PilEnv) (user : Nat) (req : CreateRequest) (newPid now : Nat)
    (store : Store) : Resp × Store :=
  match runCreateValidation req with
  | .error detail => (errorResponse detail 400, store)
  | .ok v =>
    let product : Product :=
      { pid := newPid, name := v.name, category := v.category, price := v.price,
        specs := v.specs, warranty := v.warranty.getD "3 Months",
        creator := some user, trending := v.trending, createdAt := now, images := [] }
    let store1 := store ++ [product]
    match attachImagesData env newPid v.images_data 0 store1 with
    | (store2, some detail) => (errorResponse detail 400, store2)
    | (store2, none) =>
      let finish := fun (storeF : Store) =>
        if (imagesOf newPid storeF).length = 0 then
          (errorResponse "At least one image is required" 400, deleteProduct newPid storeF)
        else
          ({ success := true, statusCode := 201,
             message := some "Product created successfully", data := some newPid }, storeF)
      match req.files with
      | some files =>
        if files.length > 10 then
          (errorResponse "Maximum 10 images allowed per product" 400,
            deleteProduct newPid store2)
        else
          match attachFiles newPid files store2 with
          | (store3, some e) => (errorResponse e 400, deleteProduct newPid store3)
          | (store3, none) => finish store3
      | none => finish store2

/-! ### Update (`ProductViewSet.update`/`partial_update`) -/

/-- An update request body; every field is optional (a `PATCH` may omit
any of them; a `PUT` requires the required model fields). -/
structure UpdateRequest where
  name : Option String
  category : Option String
  price : Option String
  specs : Option (List String)
  warranty : Option String
  trending : Option Bool
  images_data : Option (List String)
  files : Option (List FileUpload)
  deriving DecidableEq

/-- The validated data entering `ProductCreateSerializer.update`. -/
structure ValidatedUpdate where
  name : Option String
  category : Option String
  price : Option String
  specs : Option (List String)
  warranty : Option String
  trending : Option Bool
  images_data : Option (List String)
  deriving DecidableEq

def validateOptField (f : α → Except String β) : Option α → Except String (Option β)
  | none => .ok none
  | some v => (f v).map some

/-- Model of `serializer.is_valid(raise_exception=True)` for an update request:
with `patchMode` false (a `PUT`) the required fields must be present;
each supplied field runs its validator; then
`ProductCreateSerializer.validate` runs as for create. -/
def runUpdateValidation (patchMode : Bool) (req : UpdateRequest) :
    Except String ValidatedUpdate := do
  if !patchMode ∧ (req.name = none ∨ req.category = none ∨ req.price = none) then
    .error "This field is required."
  else
    let name ← validateOptField validate_name req.name
    let category ← validateOptField validate_category_field req.category
    let price ← validateOptField validate_price_field req.price
    let specs ← validateOptField validate_specs req.specs
    let images_data := req.images_data.getD []
    if images_data.isEmpty ∧ req.files = none then
      .error "At least one image is required."
    else if images_data.length > 10 then
      .error "Maximum 10 images allowed per product."
    else
      .ok ⟨name, category, price, specs, req.warranty, req.trending, req.images_data⟩

/-- The field-assignment part of `ProductCreateSerializer.update`:
`setattr` each supplied validated field, then `instance.save()`. -/
def setFields (v : ValidatedUpdate) (p : Product) : Product :=
  { p with
    name := v.name.getD p.name,
    category := v.category.getD p.category,
    price := v.price.getD p.price,
    specs := v.specs.getD p.specs,
    warranty := v.warranty.getD p.warranty,
    trending := v.trending.getD p.trending }

def saveFields (pid : Nat) (v : ValidatedUpdate) (store : Store) : Store :=
  store.map (fun p => if p.pid == pid then setFields v p else p)

/-- Transcription of `ProductViewSet.update` (`patchMode = false`) and
`ProductViewSet.partial_update` (`patchMode = true`): fetch, validate,
attach new multipart files (rejecting if the total would exceed ten, and
answering 400 at the first invalid file), then `serializer.save()`
(assign fields, then attach new base64 images, a failure there answering
400).  No path removes an existing image. -/
def updateEndpoint (env : PilEnv) (patchMode : Bool) (req : UpdateRequest) (pid : Nat)
    (store : Store) : Resp × Store :=
  match findProduct pid store with
  | none => (errorResponse "Failed to update product" 400, store)
  | some inst =>
    match runUpdateValidation patchMode req with
    | .error detail => (errorResponse detail 400, store)
    | .ok v =>
      let afterFiles : (Resp × Store) ⊕ Store :=
        match req.files with
        | some files =>
          let current_count := inst.images.length
          if current_count + files.length > 10 then
            .inl (errorResponse
              ("Maximum 10 images allowed. Currently have " ++ toString current_count
                ++ " images.") 400, store)
          else
            match attachFiles pid files store with
            | (store2, some e) => .inl (errorResponse e 400, store2)
            | (store2, none) => .inr store2
        | none => .inr store
      match afterFiles with
      | .inl r => r
      | .inr store2 =>
        let store3 := saveFields pid v store2
        let okResp : Resp :=
          { success := true, statusCode := 200,
            message := some "Product updated successfully", data := some pid }
        match v.images_data with
        | some datas =>
          if datas.isEmpty then (okResp, store3)
          else
            match attachImagesData env pid datas 0 store3 with
            | (store4, some detail) => (errorResponse detail 400, store4)
            | (store4, none) => (okResp, store4)
        | none => (okResp, store3)

/-! ### Delete image (`ProductViewSet.delete_image`) -/

def findImage (imgId : Nat) (imgs : List ProductImage) : Option ProductImage :=
  imgs.find? (fun i => i.imgId == imgId)

/-- Model of `image.delete()`: remove that `ProductImage` row. -/
def eraseImage (pid imgId : Nat) (store : Store) : Store :=
  store.map (fun p =>
    if p.pid == pid then { p with images := p.images.eraseP (fun i => i.imgId == imgId) }
    else p)

/-- Transcription of `ProductViewSet.delete_image`: 404 when the image does not belong to
the product, 400 when it is the product's last image (nothing deleted),
otherwise delete it and answer success with no data.  A missing product
surfaces through the generic handler as 500. -/
def deleteImageEndpoint (pid imgId : Nat) (store : Store) : Resp × Store :=
  match findProduct pid store with
  | none => (errorResponse "Failed to delete image" 500, store)
  | some product =>
    match findImage imgId product.images with
    | none => (errorResponse "Image not found" 404, store)
    | some _ =>
      if product.images.length ≤ 1 then
        (errorResponse "Cannot delete the last image. At least one image is required." 400,
          store)
      else
        ({ success := true, statusCode := 200, message := some "Image deleted successfully" },
          eraseImage pid imgId store)

/-! ### Catalog service (`ProductViewSet.get_queryset`/`list`, `dashboard`) -/

/-- The truthy trending tokens: `trending.lower() in ('true', '1', 'yes', 'on')`. -/
def trendingBool (t : String) : Bool := ["true", "1", "yes", "on"].contains t.toLower

/-- Model of the `name__icontains=search` filter: case-insensitive substring match. -/
def icontains (name search : String) : Bool := strOccurs search.toLower name.toLower

/-- The filter chain of `ProductViewSet.get_queryset` (shared verbatim
by `dashboard`): category equality when the parameter is truthy,
case-insensitive name search when truthy, and the trending filter
whenever the parameter is present (any non-token value filters for
`trending=False`). -/
def applyFilters (category search trending : Option String) (store : List Product) :
    List Product :=
  let queryset := store
  let queryset := match category with
    | some c => if c ≠ "" then queryset.filter (fun p => p.category == c) else queryset
    | none => queryset
  let queryset := match search with
    | some s => if s ≠ "" then queryset.filter (fun p => icontains p.name s) else queryset
    | none => queryset
  match trending with
  | some t => queryset.filter (fun p => p.trending == trendingBool t)
  | none => queryset

/-- A stable sort by a boolean comparator.  It models both a database
`order_by` and Python's stable `list.sort` (for a total transitive
comparator a stable sort's output is unique, so insertion sort is a
faithful model of either). -/
def pySort (le : α → α → Bool) (l : List α) : List α :=
  l.insertionSort (fun a b => le a b)

def byDateDesc (a b : Product) : Bool := decide (b.createdAt ≤ a.createdAt)
def byDateAsc (a b : Product) : Bool := decide (a.createdAt ≤ b.createdAt)
def byNameAsc (a b : Product) : Bool := decide (a.name ≤ b.name)
def byNameDesc (a b : Product) : Bool := decide (b.name ≤ a.name)
def byPriceAsc (a b : Product) : Bool :=
  PyFloat.le (extract_price_value a.price) (extract_price_value b.price)
def byPriceDesc (a b : Product) : Bool :=
  PyFloat.le (extract_price_value b.price) (extract_price_value a.price)

/-- Transcription of `ProductViewSet.get_queryset`: filters, then sorting.  The second
component is `True` when the result is a materialized Python list (the
price sorts), which `list` paginates by slicing instead of through
Django's `Paginator`.  An unrecognized nonempty sort token applies no
`order_by`, leaving the base `Meta.ordering` (the store's base order);
database sorts and Python's stable `list.sort` are both modelled by the
stable `pySort`. -/
def getQueryset (category search trending sortBy : Option String) (store : Store) :
    List Product × Bool :=
  let queryset := applyFilters category search trending store
  match sortBy with
  | some sort_by =>
    if sort_by = "" then (pySort byDateDesc queryset, false)
    else if sort_by = "name" then (pySort byNameAsc queryset, false)
    else if sort_by = "-name" then (pySort byNameDesc queryset, false)
    else if sort_by = "price" then (pySort byPriceAsc queryset, true)
    else if sort_by = "-price" then (pySort byPriceDesc queryset, true)
    else if sort_by = "date" then (pySort byDateAsc queryset, false)
    else if sort_by = "-date" then (pySort byDateDesc queryset, false)
    else (queryset, false)
  | none => (pySort byDateDesc queryset, false)

/-- Model of `django.core.paginator.Paginator.num_pages` with the default
`orphans=0`, `allow_empty_first_page=True`: `ceil(max(1, count) / per_page)`. -/
def paginatorNumPages (count perPage : Nat) : Nat :=
  (max 1 count + perPage - 1) / perPage

/-- Model of `Paginator.get_page(number).object_list` for an integer `number`:
an out-of-range page number is clamped to the last page. -/
def paginatorGetPage (xs : List Product) (perPage pageNumber : Nat) : List Product :=
  let np := paginatorNumPages xs.length perPage
  let p := if 1 ≤ pageNumber ∧ pageNumber ≤ np then pageNumber else np
  (xs.drop ((p - 1) * perPage)).take perPage

/-- The successful payload of `list`/`dashboard`. -/
structure PageResult where
  products : List Product
  count : Nat
  limit : Nat
  offset : Nat
  total_pages : Nat
  deriving DecidableEq

/-- Model of `int(request.query_params.get(key, dflt))`. -/
def parseParamInt (p : Option String) (dflt : Int) : Option Int :=
  match p with
  | none => some dflt
  | some s => pythonInt? s

/-- Transcription of `ProductViewSet.list`: build the queryset, parse `limit`/`offset`
(an unparseable value raises and the handler answers 500), clamp them,
then paginate — by slicing for a materialized (price-sorted) list, or
through Django's `Paginator` otherwise. -/
def listEndpoint (category search trending sortBy limitP offsetP : Option String)
    (store : Store) : Except (Nat × String) PageResult :=
  let qsl := getQueryset category search trending sortBy store
  match parseParamInt limitP 20, parseParamInt offsetP 0 with
  | some l, some o =>
    let limit : Nat := if l < 1 || l > 100 then 20 else l.toNat
    let offset : Nat := if o < 0 then 0 else o.toNat
    if qsl.2 then
      let total_count := qsl.1.length
      let paginated_items := (qsl.1.drop offset).take limit
      let total_pages := if limit > 0 then (total_count + limit - 1) / limit else 1
      .ok ⟨paginated_items, total_count, limit, offset, total_pages⟩
    else
      let page_number := offset / limit + 1
      .ok ⟨paginatorGetPage qsl.1 limit page_number, qsl.1.length, limit, offset,
        paginatorNumPages qsl.1.length limit⟩
  | _, _ => .error (500, "Failed to retrieve products")

/-- Transcription of `views.dashboard`: the creator-scoped listing.  The source
duplicates the filter/sort/paginate logic of `list` rather than calling
it; the duplication is transcribed here (over the creator-filtered
queryset), and the payload carries the creator info block (modelled by
the user id). -/
def dashboardEndpoint (user : Nat) (category search trending sortBy limitP offsetP :
    Option String) (store : Store) : Except (Nat × String) (PageResult × Nat) :=
  let queryset := store.filter (fun p => p.creator == some user)
  let queryset := applyFilters category search trending queryset
  let qsl : List Product × Bool :=
    match sortBy with
    | some sort_by =>
      if sort_by = "" then (pySort byDateDesc queryset, false)
      else if sort_by = "name" then (pySort byNameAsc queryset, false)
      else if sort_by = "-name" then (pySort byNameDesc queryset, false)
      else if sort_by = "price" then (pySort byPriceAsc queryset, true)
      else if sort_by = "-price" then (pySort byPriceDesc queryset, true)
      else if sort_by = "date" then (pySort byDateAsc queryset, false)
      else if sort_by = "-date" then (pySort byDateDesc queryset, false)
      else (queryset, false)
    | none => (pySort byDateDesc queryset, false)
  match parseParamInt limitP 20, parseParamInt offsetP 0 with
  | some l, some o =>
    let limit : Nat := if l < 1 || l > 100 then 20 else l.toNat
    let offset : Nat := if o < 0 then 0 else o.toNat
    if qsl.2 then
      let total_count := qsl.1.length
      let paginated_items := (qsl.1.drop offset).take limit
      let total_pages := if limit > 0 then (total_count + limit - 1) / limit else 1
      .ok (⟨paginated_items, total_count, limit, offset, total_pages⟩, user)
    else
      let page_number := offset / limit + 1
      .ok (⟨paginatorGetPage qsl.1 limit page_number, qsl.1.length, limit, offset,
        paginatorNumPages qsl.1.length limit⟩, user)
  | _, _ => .error (500, "Failed to retrieve dashboard data")

/-! ### Fixtures used by concrete evaluations -/

/-- A Pillow environment in which every image decode fails; the runs
below never reach it (their base64 decoding already fails). -/
def noopPil : PilEnv := ⟨true, fun _ => none⟩

/-- A create request whose fields all validate but whose single base64
image string `"A"` is invalid (its length is `≡ 1 (mod 4)`). -/
def badImageCreateReq : CreateRequest :=
  { name := "Gaming Laptop", category := "Laptops", price := "720,000 TZS",
    specs := ["16GB RAM"], warranty := none, trending := false,
    images_data := some ["A"], files := none }

def mkCatalogProduct (i created : Nat) (price : String) : Product :=
  { pid := i, name := "Product " ++ toString i, category := "Laptops", price := price,
    specs := [], warranty := "3 Months", creator := some 7, trending := false,
    createdAt := created, images := [⟨0, "img"⟩] }

/-- Two products, in base (`-created_at`) order. -/
def twoProductStore : Store := [mkCatalogProduct 1 2 "100", mkCatalogProduct 2 1 "200"]

/-- The spec's price-sort example: products priced `100,000`,
`50,000 TZS` and `200,000`. -/
def priceExampleStore : Store :=
  [mkCatalogProduct 1 1 "100,000", mkCatalogProduct 2 2 "50,000 TZS",
   mkCatalogProduct 3 3 "200,000"]

/-- A product holding two images. -/
def twoImageProduct : Product :=
  { mkCatalogProduct 5 1 "100" with images := [⟨1, "a"⟩, ⟨2, "b"⟩] }

/-- A product holding a single image. -/
def oneImageProduct : Product :=
  { mkCatalogProduct 6 1 "100" with images := [⟨3, "c"⟩] }

def deleteImageStore : Store := [twoImageProduct, oneImageProduct]

/-! ### Closed-form pagination formulas (the amended C3 statement) -/

/-- The claim's limit normalization: a limit outside `[1, 100]` is
replaced by the default 20. -/
def normLimitSpec (l : Int) : Nat := if 1 ≤ l ∧ l ≤ 100 then l.toNat else 20

/-- Computes `ceil(count / limit)`. -/
def ceilDivSpec (count limit : Nat) : Nat := (count + limit - 1) / limit

/-- The page actually served on the lazy path: Django's `Paginator`
page `offset / limit + 1`, clamped to the last page — positions
`[q * limit, (q + 1) * limit)` for
`q = min(offset / limit, max(1, ceil(count / limit)) - 1)`. -/
def lazyPageSpec (xs : List Product) (limit offset : Nat) : List Product :=
  (xs.drop (min (offset / limit) (max 1 (ceilDivSpec xs.length limit) - 1) * limit)).take
    limit

/-! ### Theorems for the claims -/

/-- C1: the claimed create-rollback guarantee fails on the base64
`images_data` path.  For a request whose fields validate but whose single
base64 image is invalid, the endpoint reports the first image error with
HTTP 400 as claimed — but the product record created by
`ProductCreateSerializer.create` persists in the store, because the
`serializers.ValidationError` escapes `serializer.save()` and the view's
`except` handler returns without deleting it.  (Evaluation of the code at
the failing input; the claim's rollback does hold on the multipart path.) -/
theorem c1_create_base64_failure_persists_product :
    (createEndpoint noopPil 7 badImageCreateReq 42 100 []).1 =
        errorResponse "Error processing image 1" 400
    ∧ findProduct 42 (createEndpoint noopPil 7 badImageCreateReq 42 100 []).2 ≠ none := by
  decide

/-- C2: the at-least-one-image invariant is violated by the same slip:
after the failing base64 create request, the store persistently contains
a product with an empty image list, so an API operation *can* produce a
persisted product with zero images. -/
theorem c2_zero_image_product_persists :
    findProduct 42 (createEndpoint noopPil 7 badImageCreateReq 42 100 []).2 =
      some { pid := 42, name := "Gaming Laptop", category := "Laptops",
             price := "720,000 TZS", specs := ["16GB RAM"], warranty := "3 Months",
             creator := some 7, trending := false, createdAt := 100, images := [] }
    ∧ imagesOf 42 (createEndpoint noopPil 7 badImageCreateReq 42 100 []).2 = [] := by
  decide

/-- C3 (counterexample): on the lazy (non-price-sorted) path the claim's
page window and total-pages formula are both wrong.  With two stored
products and `offset=1` (default limit 20) the code returns *both*
products — Django's `Paginator` serves page `offset // limit + 1 = 1`,
i.e. positions `[0, 20)` — while the claim's window `[1, 21)` holds
exactly one; and on an empty store the code reports `total_pages = 1`
while `ceil(0 / 20) = 0`. -/
theorem c3_pagination_counterexample :
    (listEndpoint none none none none none (some "1") twoProductStore).toOption.map
        (fun r => r.products.length) = some 2
    ∧ (((getQueryset none none none none twoProductStore).1.drop 1).take 20).length = 1
    ∧ (listEndpoint none none none none none none ([] : Store)).toOption.map
        (fun r => r.total_pages) = some 1
    ∧ (0 + 20 - 1) / 20 = 0 := by
  decide

/-- Deleting an image from a product removes exactly the first matching
`ProductImage` row of that product. -/
theorem imagesOf_eraseImage (pid imgId : Nat) (store : Store) :
    imagesOf pid (eraseImage pid imgId store) =
      (imagesOf pid store).eraseP (fun i => i.imgId == imgId) := by
  induction store with
  | nil => rfl
  | cons h t ih =>
    by_cases hp : h.pid = pid
    · simp [eraseImage, imagesOf, findProduct, List.find?_cons, hp]
    · have hb : (h.pid == pid) = false := by simpa using hp
      simp only [eraseImage, imagesOf, findProduct] at ih ⊢
      simp only [List.map_cons, List.find?_cons, hb, Bool.false_eq_true, if_false]
      exact ih

/-- C5: for a delete-image request against an existing image of an
existing product, the operation fails with 400 and deletes nothing when
the product has exactly one image, and otherwise deletes exactly the
targeted image and answers success with an empty data body. -/
theorem c5_delete_image :
    ∀ (store : Store) (pid imgId : Nat) (p : Product) (img : ProductImage),
      findProduct pid store = some p →
      findImage imgId p.images = some img →
      (p.images.length = 1 →
        deleteImageEndpoint pid imgId store =
          (errorResponse "Cannot delete the last image. At least one image is required." 400,
            store))
      ∧ (2 ≤ p.images.length →
          (deleteImageEndpoint pid imgId store).1 =
            { success := true, statusCode := 200, error := none,
              message := some "Image deleted successfully", data := none }
          ∧ imagesOf pid (deleteImageEndpoint pid imgId store).2 =
              p.images.eraseP (fun i => i.imgId == imgId)) := by
  intro store pid imgId p img hfp hfi
  constructor
  · intro h1
    simp only [deleteImageEndpoint, hfp, hfi]
    rw [if_pos (by omega)]
  · intro h2
    simp only [deleteImageEndpoint, hfp, hfi]
    rw [if_neg (by omega)]
    refine ⟨rfl, ?_⟩
    rw [imagesOf_eraseImage]
    have hio : imagesOf pid store = p.images := by simp [imagesOf, hfp]
    rw [hio]

/-- Witness for C5: deleting the single image of `oneImageProduct`
fails with 400 and leaves the store unchanged; deleting one of the two
images of `twoImageProduct` succeeds with no data and leaves the other
image. -/
theorem c5_delete_image_witness :
    deleteImageEndpoint 6 3 deleteImageStore =
      (errorResponse "Cannot delete the last image. At least one image is required." 400,
        deleteImageStore)
    ∧ (deleteImageEndpoint 5 1 deleteImageStore).1 =
        { success := true, statusCode := 200, error := none,
          message := some "Image deleted successfully", data := none }
    ∧ imagesOf 5 (deleteImageEndpoint 5 1 deleteImageStore).2 = [⟨2, "b"⟩] := by
  have hlast := (c5_delete_image deleteImageStore 6 3 oneImageProduct ⟨3, "c"⟩ (by decide)
    (by decide)).1 (by decide)
  have hok := (c5_delete_image deleteImageStore 5 1 twoImageProduct ⟨1, "a"⟩ (by decide)
    (by decide)).2 (by decide)
  exact ⟨hlast, hok.1, by rw [hok.2]; decide⟩

/-- C6: `extract_numeric` equals the parsed float value of its input
after removing `"TZS"`, commas and surrounding whitespace, is `0.0`
whenever that text does not parse, and never raises (it is total);
`extract_numeric("950,000 TZS") = 950000.0` and
`extract_numeric("bad") = 0.0`.  (Float values of the finite decimal
literals involved are modelled as exact rationals.) -/
theorem c6_extract_numeric :
    (∀ s : String,
      extract_price_value s =
        (pythonFloat? (pyStrip (pyReplace (pyReplace s "TZS" "") "," ""))).getD ⟨0, 0⟩)
    ∧ (extract_price_value "950,000 TZS").toRat = 950000
    ∧ (extract_price_value "bad").toRat = 0 := by
  refine ⟨fun s => ?_, ?_, ?_⟩
  · unfold extract_price_value
    cases pythonFloat? (pyStrip (pyReplace (pyReplace s "TZS" "") "," "")) <;> rfl
  · have h : extract_price_value "950,000 TZS" = ⟨950000, 0⟩ := by decide
    rw [h]; unfold PyFloat.toRat; norm_num
  · have h : extract_price_value "bad" = ⟨0, 0⟩ := by decide
    rw [h]; unfold PyFloat.toRat; norm_num

/-- C7: `format_with_commas(720000) = "720,000"`; applying
`format_with_commas` to `"720,000 TZS"` yields a value it maps to itself
(a fixed point, so a second application changes nothing); and a string
whose stripped text does not parse as an integer is returned unchanged
(and the function is total, so nothing is raised). -/
theorem c7_format_with_commas :
    format_price_with_commas (.intV 720000) = .strV "720,000"
    ∧ format_price_with_commas (format_price_with_commas (.strV "720,000 TZS"))
        = format_price_with_commas (.strV "720,000 TZS")
    ∧ ∀ s : String,
        pythonInt? (pyStrip (pyReplace (pyReplace (pyReplace s "," "") " " "") "TZS" "")) =
            none →
        format_price_with_commas (.strV s) = .strV s := by
  refine ⟨by decide, by decide, fun s h => ?_⟩
  simp only [format_price_with_commas, formatPriceStr, h]

/-- Witness for C7: the third conjunct applied at the non-numeric input
`"no price"`. -/
theorem c7_format_with_commas_witness :
    format_price_with_commas (.strV "no price") = .strV "no price" :=
  c7_format_with_commas.2.2 "no price" (by decide)

/-- The function `pySort` permutes its input. -/
theorem pySort_perm (le : α → α → Bool) (l : List α) : (pySort le l).Perm l :=
  List.perm_insertionSort _ l

/-- The function `pySort` sorts by any total transitive boolean comparator. -/
theorem pySort_pairwise (le : α → α → Bool) (htot : ∀ a b, le a b || le b a)
    (htrans : ∀ a b c, le a b = true → le b c = true → le a c = true) (l : List α) :
    (pySort le l).Pairwise (fun a b => le a b = true) := by
  unfold pySort
  letI : IsTotal α (fun a b => le a b = true) :=
    ⟨fun a b => (Bool.or_eq_true _ _).mp (htot a b)⟩
  letI : IsTrans α (fun a b => le a b = true) := ⟨fun a b c => htrans a b c⟩
  exact List.sorted_insertionSort _ l

/-- The boolean order on `PyFloat` agrees with the order of the denoted
rational values. -/
theorem PyFloat.le_iff (a b : PyFloat) : PyFloat.le a b = true ↔ a.toRat ≤ b.toRat := by
  unfold PyFloat.le PyFloat.toRat
  rw [decide_eq_true_iff, div_le_div_iff₀ (by positivity) (by positivity)]
  constructor <;> intro h <;> exact_mod_cast h

theorem PyFloat.le_total' (a b : PyFloat) : PyFloat.le a b || PyFloat.le b a := by
  unfold PyFloat.le
  rcases le_total (a.num * (10 : Int) ^ b.scale) (b.num * (10 : Int) ^ a.scale) with h | h
  · simp [h]
  · simp [h]

theorem PyFloat.le_trans' (a b c : PyFloat) (hab : PyFloat.le a b = true)
    (hbc : PyFloat.le b c = true) : PyFloat.le a c = true := by
  rw [PyFloat.le_iff] at *
  exact le_trans hab hbc

/-- C4: with `sort="-price"` the result is the matching products in
descending order of `extract_numeric` of their price strings; with
`sort="price"` ascending; with no sort parameter in descending
`created_at` order — and on the spec's example store the `-price`
listing comes back ordered 200000, 100000, 50000. -/
theorem c4_price_sort_semantics :
    (∀ category search trending store,
      (getQueryset category search trending (some "-price") store).1.Perm
          (applyFilters category search trending store)
        ∧ (getQueryset category search trending (some "-price") store).1.Pairwise
            (fun a b =>
              (extract_price_value b.price).toRat ≤ (extract_price_value a.price).toRat)
        ∧ (getQueryset category search trending (some "price") store).1.Perm
            (applyFilters category search trending store)
        ∧ (getQueryset category search trending (some "price") store).1.Pairwise
            (fun a b =>
              (extract_price_value a.price).toRat ≤ (extract_price_value b.price).toRat)
        ∧ (getQueryset category search trending none store).1.Perm
            (applyFilters category search trending store)
        ∧ (getQueryset category search trending none store).1.Pairwise
            (fun a b => b.createdAt ≤ a.createdAt))
    ∧ (listEndpoint none none none (some "-price") none none priceExampleStore).toOption.map
        (fun r => r.products.map Product.price) =
      some ["200,000", "100,000", "50,000 TZS"] := by
  constructor
  · intro c s t store
    have hdesc : getQueryset c s t (some "-price") store =
        (pySort byPriceDesc (applyFilters c s t store), true) := rfl
    have hasc : getQueryset c s t (some "price") store =
        (pySort byPriceAsc (applyFilters c s t store), true) := rfl
    have hnone : getQueryset c s t none store =
        (pySort byDateDesc (applyFilters c s t store), false) := rfl
    rw [hdesc, hasc, hnone]
    refine ⟨pySort_perm _ _, ?_, pySort_perm _ _, ?_, pySort_perm _ _, ?_⟩
    · have hp := pySort_pairwise byPriceDesc
        (fun a b => PyFloat.le_total' (extract_price_value b.price)
          (extract_price_value a.price))
        (fun a b c hab hbc => PyFloat.le_trans' (extract_price_value c.price)
          (extract_price_value b.price) (extract_price_value a.price) hbc hab)
        (applyFilters c s t store)
      exact hp.imp (fun h => (PyFloat.le_iff _ _).mp h)
    · have hp := pySort_pairwise byPriceAsc
        (fun a b => PyFloat.le_total' (extract_price_value a.price)
          (extract_price_value b.price))
        (fun a b c hab hbc => PyFloat.le_trans' (extract_price_value a.price)
          (extract_price_value b.price) (extract_price_value c.price) hab hbc)
        (applyFilters c s t store)
      exact hp.imp (fun h => (PyFloat.le_iff _ _).mp h)
    · have hp := pySort_pairwise byDateDesc
        (fun a b => by unfold byDateDesc; rcases le_total b.createdAt a.createdAt with h | h <;>
          simp [h])
        (fun a b c hab hbc => by
          unfold byDateDesc at *
          rw [decide_eq_true_iff] at *
          omega)
        (applyFilters c s t store)
      exact hp.imp (fun h => by
        have := of_decide_eq_true h
        exact this)
  · decide

/-- C10: a present but unparseable `limit` or `offset` query parameter
does not fall back to a default or clamped value: both the list and the
dashboard operation answer the 500 error envelope and return no items. -/
theorem c10_bad_pagination_param_500 :
    ∀ (category search trending sortBy other : Option String) (bad : String)
      (store : Store) (user : Nat),
      pythonInt? bad = none →
      listEndpoint category search trending sortBy (some bad) other store =
          .error (500, "Failed to retrieve products")
      ∧ listEndpoint category search trending sortBy other (some bad) store =
          .error (500, "Failed to retrieve products")
      ∧ dashboardEndpoint user category search trending sortBy (some bad) other store =
          .error (500, "Failed to retrieve dashboard data")
      ∧ dashboardEndpoint user category search trending sortBy other (some bad) store =
          .error (500, "Failed to retrieve dashboard data") := by
  intro c s t sb other bad store u hbad
  have hbad20 : parseParamInt (some bad) 20 = none := by simp [parseParamInt, hbad]
  have hbad0 : parseParamInt (some bad) 0 = none := by simp [parseParamInt, hbad]
  refine ⟨?_, ?_, ?_, ?_⟩
  · simp only [listEndpoint, hbad20]
  · simp only [listEndpoint, hbad0]
    cases parseParamInt other 20 <;> rfl
  · simp only [dashboardEndpoint, hbad20]
  · simp only [dashboardEndpoint, hbad0]
    cases parseParamInt other 20 <;> rfl

/-- Lookup by product id commutes with mapping an id-preserving
function over the store. -/
theorem findProduct_map (f : Product → Product) (hf : ∀ p, (f p).pid = p.pid) (q : Nat)
    (store : Store) :
    findProduct q (store.map f) = (findProduct q store).map f := by
  induction store with
  | nil => rfl
  | cons h t ih =>
    simp only [List.map_cons, findProduct] at ih ⊢
    by_cases hq : h.pid = q <;> simp [List.find?_cons, hf, hq, ih]

/-- Attaching an image to any product only appends to image lists. -/
theorem imagesOf_addImage (q p : Nat) (img : String) (store : Store) :
    (imagesOf q store).Sublist (imagesOf q (addImage p img store)) := by
  unfold addImage imagesOf
  rw [findProduct_map _ (fun x => by by_cases hx : x.pid = p <;> simp [hx]) q store]
  cases hf : findProduct q store with
  | none => simp
  | some prod =>
    by_cases hp : prod.pid = p
    · simp [hp]
    · simp [hp]

/-- The base64-attachment loop only appends to image lists, wherever it
stops. -/
theorem imagesOf_attachImagesData (env : PilEnv) (q p : Nat) (datas : List String)
    (idx : Nat) (store : Store) :
    (imagesOf q store).Sublist (imagesOf q (attachImagesData env p datas idx store).1) := by
  induction datas generalizing idx store with
  | nil => exact .refl _
  | cons d rest ih =>
    simp only [attachImagesData]
    by_cases hd : d = ""
    · rw [if_pos hd]
      exact ih _ _
    · rw [if_neg hd]
      cases hb : base64_to_image env d
          ("product_" ++ toString p ++ "_" ++ toString idx ++ ".png") with
      | none => exact .refl _
      | some file =>
        simp only [hb]
        exact (imagesOf_addImage q p file store).trans (ih _ _)

/-- The multipart-attachment loop only appends to image lists, wherever
it stops. -/
theorem imagesOf_attachFiles (q p : Nat) (files : List FileUpload) (store : Store) :
    (imagesOf q store).Sublist (imagesOf q (attachFiles p files store).1) := by
  induction files generalizing store with
  | nil => exact .refl _
  | cons f rest ih =>
    simp only [attachFiles]
    cases hv : validate_image_file f with
    | some e => simp only [hv]; exact .refl _
    | none =>
      simp only [hv]
      exact (imagesOf_addImage q p f.fileRef store).trans (ih _)

/-- Field assignment during update leaves every image list unchanged. -/
theorem imagesOf_saveFields (q pid : Nat) (v : ValidatedUpdate) (store : Store) :
    imagesOf q (saveFields pid v store) = imagesOf q store := by
  unfold saveFields imagesOf
  rw [findProduct_map _ (fun x => by by_cases hx : x.pid = pid <;> simp [hx, setFields]) q]
  cases hf : findProduct q store with
  | none => simp
  | some prod => by_cases hp : prod.pid = pid <;> simp [hp, setFields]

/-- C8: neither update nor partial-update ever removes an existing
image: on every path (success or any failure) the target product's image
list before the request is a sublist — in fact a prefix — of its image
list afterwards. -/
theorem c8_update_preserves_images :
    ∀ (env : PilEnv) (patchMode : Bool) (req : UpdateRequest) (pid : Nat) (store : Store),
      (imagesOf pid store).Sublist
        (imagesOf pid (updateEndpoint env patchMode req pid store).2) := by
  intro env pm req pid store
  unfold updateEndpoint
  cases hfp : findProduct pid store with
  | none => exact .refl _
  | some inst =>
    cases hv : runUpdateValidation pm req with
    | error e => exact .refl _
    | ok v =>
      simp only []
      cases hrf : req.files with
      | none =>
        simp only []
        cases hid : v.images_data with
        | none =>
          simp only []
          rw [imagesOf_saveFields]
        | some datas =>
          simp only []
          by_cases hde : datas.isEmpty
          · rw [if_pos hde]
            rw [imagesOf_saveFields]
          · rw [if_neg hde]
            rcases hli : attachImagesData env pid datas 0 (saveFields pid v store) with
              ⟨store4, oerr⟩
            have hsub := imagesOf_attachImagesData env pid pid datas 0
              (saveFields pid v store)
            rw [hli] at hsub
            rw [imagesOf_saveFields] at hsub
            cases oerr <;> simpa using hsub
      | some files =>
        simp only []
        by_cases hcnt : inst.images.length + files.length > 10
        · rw [if_pos hcnt]
        · rw [if_neg hcnt]
          rcases hb : attachFiles pid files store with ⟨store2, oe⟩
          have hsub2 := imagesOf_attachFiles pid pid files store
          rw [hb] at hsub2
          cases oe with
          | some e => simpa using hsub2
          | none =>
            simp only []
            cases hid : v.images_data with
            | none =>
              simp only []
              rw [imagesOf_saveFields]
              exact hsub2
            | some datas =>
              simp only []
              by_cases hde : datas.isEmpty
              · rw [if_pos hde]
                rw [imagesOf_saveFields]
                exact hsub2
              · rw [if_neg hde]
                rcases hli : attachImagesData env pid datas 0 (saveFields pid v store2) with
                  ⟨store4, oerr⟩
                have hsub3 := imagesOf_attachImagesData env pid pid datas 0
                  (saveFields pid v store2)
                rw [hli, imagesOf_saveFields] at hsub3
                cases oerr <;> simpa using (hsub2.trans hsub3)

/-- C9: for every authenticated principal and parameter combination the
dashboard returns exactly the page (same items, order, count, limit,
offset and total_pages) that the product-list operation returns on the
sub-collection of products whose creator is that principal. -/
theorem c9_dashboard_refines_list :
    ∀ (user : Nat) (category search trending sortBy limitP offsetP : Option String)
      (store : Store),
      (dashboardEndpoint user category search trending sortBy limitP offsetP
          store).toOption.map Prod.fst =
        (listEndpoint category search trending sortBy limitP offsetP
          (store.filter (fun p => p.creator == some user))).toOption := by
  intro u c s t sb l o store
  unfold dashboardEndpoint listEndpoint getQueryset
  cases hl : parseParamInt l 20 <;> cases ho : parseParamInt o 0 <;> simp only [hl, ho]
  · rfl
  · rfl
  · rfl
  · split <;> rfl

/-- Witness for C10: the four conjuncts at the concrete bad parameter
`"abc"` on the two-product store. -/
theorem c10_bad_pagination_param_500_witness :
    listEndpoint none none none none (some "abc") none twoProductStore =
        .error (500, "Failed to retrieve products")
    ∧ listEndpoint none none none none none (some "abc") twoProductStore =
        .error (500, "Failed to retrieve products")
    ∧ dashboardEndpoint 7 none none none none (some "abc") none twoProductStore =
        .error (500, "Failed to retrieve dashboard data")
    ∧ dashboardEndpoint 7 none none none none none (some "abc") twoProductStore =
        .error (500, "Failed to retrieve dashboard data") :=
  c10_bad_pagination_param_500 none none none none none "abc" twoProductStore 7 (by decide)


/-- The view's limit clamp equals the claim's normalization. -/
theorem normLimit_eq (l : Int) :
    (if l < 1 || l > 100 then (20 : Nat) else l.toNat) = normLimitSpec l := by
  unfold normLimitSpec
  simp only [Bool.or_eq_true, decide_eq_true_eq]
  by_cases h : 1 ≤ l ∧ l ≤ 100
  · rw [if_neg (by omega), if_pos h]
  · rw [if_pos (by omega), if_neg h]

/-- The view's offset clamp equals truncation to `Nat`. -/
theorem normOffset_eq (o : Int) : (if o < 0 then (0 : Nat) else o.toNat) = o.toNat := by
  by_cases h : o < 0
  · rw [if_pos h]; omega
  · rw [if_neg h]

/-- Closed form of `Paginator.num_pages`: at least one page, else the
ceiling. -/
theorem paginatorNumPages_eq (count limit : Nat) (hl : 0 < limit) :
    paginatorNumPages count limit = max 1 (ceilDivSpec count limit) := by
  unfold paginatorNumPages ceilDivSpec
  rcases Nat.eq_zero_or_pos count with h | h
  · subst h
    have h1 : max 1 0 + limit - 1 = limit := by omega
    have h2 : (0 + limit - 1) / limit = 0 := Nat.div_eq_of_lt (by omega)
    rw [h1, Nat.div_self hl, h2]
    omega
  · rw [Nat.max_eq_right h]
    have h1 : 1 ≤ (count + limit - 1) / limit := by
      rw [Nat.le_div_iff_mul_le hl]; omega
    rw [Nat.max_eq_right h1]

/-- The page served for `offset / limit + 1` in closed form: the
page-aligned window, clamped to the last page. -/
theorem paginatorGetPage_eq (xs : List Product) (limit offset : Nat) (hl : 0 < limit) :
    paginatorGetPage xs limit (offset / limit + 1) = lazyPageSpec xs limit offset := by
  simp only [paginatorGetPage, lazyPageSpec]
  rw [paginatorNumPages_eq _ _ hl]
  have hnp1 : 1 ≤ max 1 (ceilDivSpec xs.length limit) := le_max_left _ _
  have harg : ∀ (d np : Nat), 1 ≤ np →
      ((if 1 ≤ d + 1 ∧ d + 1 ≤ np then d + 1 else np) - 1) = min d (np - 1) := by
    intro d np h1
    by_cases hcase : 1 ≤ d + 1 ∧ d + 1 ≤ np
    · rw [if_pos hcase]; omega
    · rw [if_neg hcase]; omega
  rw [harg (offset / limit) (max 1 (ceilDivSpec xs.length limit)) hnp1]

/-- C3 (amended): the limit/offset normalization is as claimed, and on
the price-sorted (materialized) path so is the page window
`[offset, offset + limit)` with `total_pages = ceil(count / limit)`;
but on the lazy path the served window is the Paginator page
`offset / limit + 1` clamped to the last page (`lazyPageSpec`), and
`total_pages = max 1 (ceil(count / limit))`. -/
theorem c3_pagination_amended :
    ∀ (category search trending sortBy limitP offsetP : Option String) (store : Store)
      (l o : Int),
      parseParamInt limitP 20 = some l →
      parseParamInt offsetP 0 = some o →
      listEndpoint category search trending sortBy limitP offsetP store =
        .ok { products :=
                if (getQueryset category search trending sortBy store).2 then
                  ((getQueryset category search trending sortBy store).1.drop o.toNat).take
                    (normLimitSpec l)
                else
                  lazyPageSpec (getQueryset category search trending sortBy store).1
                    (normLimitSpec l) o.toNat,
              count := (getQueryset category search trending sortBy store).1.length,
              limit := normLimitSpec l,
              offset := o.toNat,
              total_pages :=
                if (getQueryset category search trending sortBy store).2 then
                  ceilDivSpec (getQueryset category search trending sortBy store).1.length
                    (normLimitSpec l)
                else
                  max 1 (ceilDivSpec
                    (getQueryset category search trending sortBy store).1.length
                    (normLimitSpec l)) } := by
  intro c s t sb lP oP store l o hl ho
  have hpos : 0 < normLimitSpec l := by unfold normLimitSpec; split <;> omega
  unfold listEndpoint
  simp only [hl, ho]
  rw [normLimit_eq, normOffset_eq]
  rcases hq : getQueryset c s t sb store with ⟨qs, isl⟩
  cases isl
  · dsimp only
    simp only [Bool.false_eq_true, ite_false]
    rw [paginatorGetPage_eq _ _ _ hpos, paginatorNumPages_eq _ _ hpos]
  · dsimp only
    simp only [ite_true]
    rw [if_pos hpos]
    rfl


/-- Witness for C3's amended theorem: `limit=500` normalizes to 20 and
`offset=-5` to 0, and the lazy path serves page 1 of the two-product
store with `total_pages = 1`. -/
theorem c3_pagination_amended_witness :
    listEndpoint none none none none (some "500") (some "-5") twoProductStore =
      .ok { products := [mkCatalogProduct 1 2 "100", mkCatalogProduct 2 1 "200"],
            count := 2, limit := 20, offset := 0, total_pages := 1 } := by
  have h := c3_pagination_amended none none none none (some "500") (some "-5")
    twoProductStore 500 (-5) (by decide) (by decide)
  rw [h]
  simp only [Except.ok.injEq]
  decide

end Shop
